import Mathlib

/-!
Verification of the customer/document management API described in the
repository specification.  The repository ships its unit-test suite
(`src/app.py`, a pytest file importing the Flask application `app`);
the application module itself is not present under `src/`, so every
handler below is modelled from the spec, with the test file as the
authority on the HTTP surface (paths, header names, status codes and
message fragments that the tests assert).
-/

/-- Raw byte content of an uploaded file, modelled as a list of bytes. -/
abbrev Bytes := List Nat

/-- Modelled from the spec: `ContentFingerprint.compute(bytes)` is a
deterministic, collision-resistant digest of the raw bytes.  A shallow
embedding cannot model a cryptographic hash, so the fingerprint is taken
to be the byte content itself: deterministic and injective, the ideal
behaviour the spec assumes ("same bytes → same fingerprint always;
different bytes → different fingerprint"). -/
def fingerprint (b : Bytes) : Bytes := b

/-- A registered customer: identifier, name, email and issued API key
(spec section 3, data model). -/
structure Customer where
  id : Nat
  name : String
  email : String
  apiKey : String
deriving Repr, DecidableEq

/-- A stored document: identifier, owning customer, original filename,
content fingerprint and byte size (spec section 3, data model). -/
structure Document where
  id : Nat
  customerId : Nat
  filename : String
  fp : Bytes
  size : Nat
deriving Repr, DecidableEq

/-- The single point of shared state: the backing store holding
customers and documents, plus the fresh-identifier counters. -/
structure AppState where
  customers : List Customer
  documents : List Document
  nextCustomerId : Nat
  nextDocumentId : Nat
deriving Repr, DecidableEq

/-- The empty store. -/
def initState : AppState := ⟨[], [], 0, 0⟩

/-- A structured HTTP-level response: status code plus the optional
JSON fields observed in the tests (`error`, `message`, `customer_id`,
`api_key`, `document_id`, `filename`, `documents`, `total`, `page`,
`per_page`). -/
structure Response where
  status : Nat
  error : Option String
  message : Option String
  customerId : Option Nat
  apiKey : Option String
  documentId : Option Nat
  filename : Option String
  documents : Option (List Document)
  total : Option Nat
  page : Option Nat
  perPage : Option Nat
deriving Repr, DecidableEq

/-- A response carrying nothing but a status code. -/
def Response.bare (st : Nat) : Response :=
  ⟨st, none, none, none, none, none, none, none, none, none, none⟩

/-- An error response: status code plus an `error` field. -/
def Response.ofError (st : Nat) (e : String) : Response :=
  { Response.bare st with error := some e }

/-- A response carrying a human-readable `message` field. -/
def Response.ofMessage (st : Nat) (m : String) : Response :=
  { Response.bare st with message := some m }

/-- Does the first character list start with the second? -/
def startsWithChars : List Char → List Char → Bool
  | _, [] => true
  | [], _ :: _ => false
  | a :: as, b :: bs => a == b && startsWithChars as bs

/-- Does `needle` occur as a contiguous run inside `hay`? -/
def hasSubChars (needle : List Char) : List Char → Bool
  | [] => startsWithChars [] needle
  | a :: t => startsWithChars (a :: t) needle || hasSubChars needle t

/-- `containsText hay needle` decides whether `needle` occurs as a
contiguous substring of `hay` (used for the message contracts
"duplicate", "not allowed", "deleted successfully", "already
registered" that the tests assert with Python's `in`). -/
def containsText (hay needle : String) : Bool :=
  hasSubChars needle.data hay.data

/-- Modelled from the spec: the API-key generator.  `register` issues a
"cryptographically random API key (≥20 printable characters)"; a
shallow embedding replaces randomness by a deterministic injective
generator indexed by the fresh customer identifier, keeping the
properties the spec states: more than 20 characters, all printable. -/
def genApiKey (n : Nat) : String :=
  "sk-" ++ String.mk (List.replicate (20 + n) 'x')

/-- The characters of a string, lower-cased (case-normalisation for
the email uniqueness check). -/
def lowerChars (str : String) : List Char :=
  str.data.map Char.toLower

/-- Is this (lower-cased) email already registered?  The spec makes the
email check case-insensitive. -/
def emailTaken (email : String) (s : AppState) : Bool :=
  s.customers.any (fun c => lowerChars c.email == lowerChars email)

/-- Modelled from the spec: `CustomerRegistry.register(name, email)`.
Fails with `Conflict` (409) if the email is already registered
(case-insensitively); otherwise persists one new Customer record and
returns 201 with the fresh identifier and API key. -/
def register (name email : String) (s : AppState) : Response × AppState :=
  if emailTaken email s then
    (Response.ofError 409 "Email already registered", s)
  else
    let cid := s.nextCustomerId
    let key := genApiKey cid
    ({ Response.bare 201 with customerId := some cid, apiKey := some key },
     { s with customers := ⟨cid, name, email, key⟩ :: s.customers,
              nextCustomerId := cid + 1 })

/-- Modelled from the spec: `CustomerRegistry.authenticate(apiKey)`.
Returns the customer identifier when the key is present, non-empty and
found; `none` (→ `Unauthorized`) otherwise.  The lookup is keyed by the
key's own value. -/
def authenticate (apiKey : Option String) (s : AppState) : Option Nat :=
  match apiKey with
  | none => none
  | some k =>
    if k = "" then none
    else (s.customers.find? (fun c => c.apiKey == k)).map (fun c => c.id)

/-- The file-type allow-list the spec names (pdf, doc, docx, txt, png,
jpg). -/
def allowedExtensions : List String :=
  ["pdf", "doc", "docx", "txt", "png", "jpg"]

/-- Scan the characters of a filename, tracking the run of characters
after the most recently seen dot (`none` while no dot has been seen). -/
def extScan : List Char → Option (List Char) → Option (List Char)
  | [], acc => acc
  | c :: t, acc =>
    if c == '.' then extScan t (some [])
    else extScan t (acc.map (fun l => l ++ [c]))

/-- The filename's extension: the lower-cased part after the last dot,
`none` when the filename has no dot. -/
def extensionOf (filename : String) : Option String :=
  (extScan filename.data none).map (fun l => String.mk (l.map Char.toLower))

/-- Modelled from the spec: the UploadGate file-type check — the
filename must have an extension in the allow-list. -/
def allowedFile (filename : String) : Bool :=
  match extensionOf filename with
  | none => false
  | some e => allowedExtensions.contains e

/-- Does the store already hold a document for this (customer,
fingerprint) pair? -/
def hasDoc (cid : Nat) (f : Bytes) (s : AppState) : Bool :=
  s.documents.any (fun d => d.customerId == cid && d.fp == f)

/-- Modelled from the spec: `UploadGate.handleUpload(apiKey, file)`.
401 if authentication fails; 400 ("No file provided") if no file
payload; 400 ("File type not allowed") if the extension is outside the
allow-list; 409 with a "duplicate" message if the store already holds a
document for (customer, fingerprint); otherwise inserts one Document
and returns 201 with its identifier and the original filename. -/
def handleUpload (apiKey : Option String) (file : Option (String × Bytes))
    (s : AppState) : Response × AppState :=
  match authenticate apiKey s with
  | none => (Response.ofError 401 "Invalid or missing API key", s)
  | some cid =>
    match file with
    | none => (Response.ofError 400 "No file provided", s)
    | some (fname, bytes) =>
      if allowedFile fname then
        if hasDoc cid (fingerprint bytes) s then
          (Response.ofMessage 409 "duplicate document detected", s)
        else
          let did := s.nextDocumentId
          let d : Document := ⟨did, cid, fname, fingerprint bytes, bytes.length⟩
          ({ Response.bare 201 with documentId := some did,
                                    filename := some fname },
           { s with documents := d :: s.documents,
                    nextDocumentId := did + 1 })
      else (Response.ofError 400 "File type not allowed", s)

/-- The documents owned by one customer, in store order. -/
def ownDocuments (cid : Nat) (s : AppState) : List Document :=
  s.documents.filter (fun d => d.customerId == cid)

/-- Modelled from the spec: the listing flow — authenticate, default
`page` to 1 and `per_page` to 20 when unspecified, echo both back, and
return the requested window over the customer's own documents together
with the total count. -/
def listDocuments (apiKey : Option String) (page perPage : Option Nat)
    (s : AppState) : Response :=
  match authenticate apiKey s with
  | none => Response.ofError 401 "Invalid or missing API key"
  | some cid =>
    let p := page.getD 1
    let pp := perPage.getD 20
    let docs := ownDocuments cid s
    { Response.bare 200 with
        documents := some ((docs.drop ((p - 1) * pp)).take pp),
        total := some docs.length,
        page := some p, perPage := some pp }

/-- Modelled from the spec: `DocumentStore.get(customerId, documentId)`
behind authentication.  404 if the document is absent or owned by a
different customer (tenant isolation); 200 with the record otherwise. -/
def getDocument (apiKey : Option String) (docId : Nat) (s : AppState) :
    Response :=
  match authenticate apiKey s with
  | none => Response.ofError 401 "Invalid or missing API key"
  | some cid =>
    match s.documents.find? (fun d => d.id == docId && d.customerId == cid) with
    | none => Response.ofError 404 "Document not found"
    | some d =>
      { Response.bare 200 with documentId := some d.id,
                               filename := some d.filename }

/-- Modelled from the spec: `DocumentStore.delete(customerId,
documentId)` behind authentication.  404 if absent or foreign-owned;
otherwise permanently removes the record and returns 200 with a
confirmation message. -/
def deleteDocument (apiKey : Option String) (docId : Nat) (s : AppState) :
    Response × AppState :=
  match authenticate apiKey s with
  | none => (Response.ofError 401 "Invalid or missing API key", s)
  | some cid =>
    if s.documents.any (fun d => d.id == docId && d.customerId == cid) then
      let rest := s.documents.filter (fun d => !(d.id == docId && d.customerId == cid))
      (Response.ofMessage 200 "Document deleted successfully",
       { s with documents := rest })
    else (Response.ofError 404 "Document not found", s)

/-- An HTTP request as the tests issue them: method, path, headers,
the JSON registration body fields, the multipart file payload, and the
pagination query parameters. -/
structure Request where
  method : String
  path : String
  headers : List (String × String)
  bodyName : Option String
  bodyEmail : Option String
  file : Option (String × Bytes)
  page : Option Nat
  perPage : Option Nat
deriving Repr, DecidableEq

/-- The value of a named request header, if present. -/
def headerValue (name : String) (req : Request) : Option String :=
  (req.headers.find? (fun h => h.fst == name)).map (fun h => h.snd)

/-- The API key of a request: read from the `X-API-Key` header
specifically, the header name the test suite uses on every
authenticated call. -/
def requestApiKey (req : Request) : Option String :=
  headerValue "X-API-Key" req

/-- The routes of the service.  Taken from the endpoints the test suite
(`src/app.py`) exercises: every application route carries the `/api/v1`
prefix (plus the unprefixed `/health`). -/
inductive Route where
  | registerRoute
  | uploadRoute
  | listRoute
  | getRoute (id : String)
  | deleteRoute (id : String)
  | healthRoute
  | noRoute
deriving Repr, DecidableEq

/-- Split a character list on `/`, keeping empty segments (the same
segmentation Python's `split("/")` gives a URL path). -/
def splitSlash : List Char → List Char → List String
  | [], cur => [String.mk cur.reverse]
  | c :: t, cur =>
    if c == '/' then String.mk cur.reverse :: splitSlash t []
    else splitSlash t (c :: cur)

/-- The `/`-separated segments of a URL path. -/
def pathParts (path : String) : List String :=
  splitSlash path.data []

/-- Parse a decimal document identifier from a path segment. -/
def parseDocId (seg : String) : Option Nat :=
  if seg.data ≠ [] ∧ seg.data.all (fun c => c.isDigit) then
    some (seg.data.foldl (fun n c => n * 10 + (c.toNat - 48)) 0)
  else none

/-- Match a method and path against the routing table. -/
def routeOf (method path : String) : Route :=
  match method, pathParts path with
  | "POST", ["", "api", "v1", "customers", "register"] => Route.registerRoute
  | "POST", ["", "api", "v1", "documents", "upload"] => Route.uploadRoute
  | "GET", ["", "api", "v1", "documents"] => Route.listRoute
  | "GET", ["", "api", "v1", "documents", id] => Route.getRoute id
  | "DELETE", ["", "api", "v1", "documents", id] => Route.deleteRoute id
  | "GET", ["", "health"] => Route.healthRoute
  | _, _ => Route.noRoute

/-- Modelled from the spec: the request boundary.  Routes the request
and invokes the matching handler; unknown paths and unparsable document
identifiers yield 404, a registration body missing name or email yields
400. -/
def dispatch (req : Request) (s : AppState) : Response × AppState :=
  match routeOf req.method req.path with
  | Route.registerRoute =>
    match req.bodyName, req.bodyEmail with
    | some name, some email => register name email s
    | _, _ => (Response.ofError 400 "Name and email are required", s)
  | Route.uploadRoute => handleUpload (requestApiKey req) req.file s
  | Route.listRoute => (listDocuments (requestApiKey req) req.page req.perPage s, s)
  | Route.getRoute id =>
    match parseDocId id with
    | some docId => (getDocument (requestApiKey req) docId s, s)
    | none => (Response.ofError 404 "Document not found", s)
  | Route.deleteRoute id =>
    match parseDocId id with
    | some docId => deleteDocument (requestApiKey req) docId s
    | none => (Response.ofError 404 "Document not found", s)
  | Route.healthRoute => (Response.ofMessage 200 "healthy", s)
  | Route.noRoute => (Response.ofError 404 "Not found", s)

@[simp] lemma Response.status_bare (st : Nat) : (Response.bare st).status = st := rfl

@[simp] lemma Response.status_ofError (st : Nat) (e : String) :
    (Response.ofError st e).status = st := rfl

@[simp] lemma Response.status_ofMessage (st : Nat) (m : String) :
    (Response.ofMessage st m).status = st := rfl

@[simp] lemma Response.error_ofError (st : Nat) (e : String) :
    (Response.ofError st e).error = some e := rfl

@[simp] lemma Response.message_ofMessage (st : Nat) (m : String) :
    (Response.ofMessage st m).message = some m := rfl

lemma genApiKey_length (n : Nat) : (genApiKey n).length = 23 + n := by
  simp [genApiKey, String.length_append, String.length]
  omega

lemma genApiKey_printable (n : Nat) :
    ∀ c ∈ (genApiKey n).data, 32 < c.toNat ∧ c.toNat < 127 := by
  intro c hc
  simp [genApiKey, String.data_append] at hc
  rcases hc with rfl | rfl | rfl | rfl <;> decide

/-- **C7.** A registration whose email is fresh succeeds with 201,
returns a customer identifier, and returns a freshly generated API key
of strictly more than 20 printable characters. -/
theorem register_success_key (name email : String) (s : AppState)
    (h : emailTaken email s = false) :
    (register name email s).1.status = 201 ∧
    (register name email s).1.customerId = some s.nextCustomerId ∧
    (register name email s).1.apiKey = some (genApiKey s.nextCustomerId) ∧
    20 < (genApiKey s.nextCustomerId).length ∧
    ∀ c ∈ (genApiKey s.nextCustomerId).data, 32 < c.toNat ∧ c.toNat < 127 := by
  refine ⟨?_, ?_, ?_, ?_, genApiKey_printable _⟩
  · simp [register, h]
  · simp [register, h]
  · simp [register, h]
  · rw [genApiKey_length]; omega

/-- **C7 witness.** Registering the spec's scenario customer on the
empty store: 201, a customer id, and a key longer than 20 characters. -/
theorem register_success_key_witness :
    emailTaken "a@x.com" initState = false ∧
    (register "John Doe" "a@x.com" initState).1.status = 201 := by
  refine ⟨by decide, (register_success_key "John Doe" "a@x.com" initState (by decide)).1⟩

lemma register_of_taken (n e : String) (s : AppState)
    (h : emailTaken e s = true) :
    register n e s = (Response.ofError 409 "Email already registered", s) := by
  simp only [register, h, if_true]

lemma register_of_fresh (n e : String) (s : AppState)
    (h : emailTaken e s = false) :
    register n e s =
      ({ Response.bare 201 with customerId := some s.nextCustomerId,
                                apiKey := some (genApiKey s.nextCustomerId) },
       { s with customers := ⟨s.nextCustomerId, n, e, genApiKey s.nextCustomerId⟩ :: s.customers,
                nextCustomerId := s.nextCustomerId + 1 }) := by
  simp only [register, h, Bool.false_eq_true, if_false]

lemma emailTaken_after_register (n e : String) (s : AppState) :
    emailTaken e (register n e s).2 = true := by
  by_cases h : emailTaken e s
  · rw [register_of_taken n e s h]; exact h
  · simp only [Bool.not_eq_true] at h
    rw [register_of_fresh n e s h]
    simp [emailTaken, List.any_cons]

/-- **C2.** After any registration with email `e`, registering again
with the same email fails with Conflict (409) whatever name is
supplied, the error communicates "already registered", and the store is
left unchanged: the existing customer record is not overwritten. -/
theorem register_duplicate_email_conflict (s : AppState) (n1 e n2 : String) :
    (register n2 e (register n1 e s).2).1.status = 409 ∧
    containsText (((register n2 e (register n1 e s).2).1.error).getD "")
      "already registered" = true ∧
    (register n2 e (register n1 e s).2).2 = (register n1 e s).2 := by
  rw [register_of_taken n2 e _ (emailTaken_after_register n1 e s)]
  exact ⟨rfl,
    (by decide :
      containsText "Email already registered" "already registered" = true),
    rfl⟩

/-- **C5.** A missing API key never authenticates, and any upload whose
key fails authentication (absent, empty or unknown) is rejected with
Unauthorized (401) and leaves the store unchanged: no document is
stored. -/
theorem upload_unauthorized (key : Option String)
    (file : Option (String × Bytes)) (s : AppState)
    (h : authenticate key s = none) :
    authenticate (none : Option String) s = none ∧
    (handleUpload key file s).1.status = 401 ∧
    (handleUpload key file s).2 = s := by
  refine ⟨rfl, ?_, ?_⟩ <;> simp [handleUpload, h]

/-- **C5 witness.** An upload with an unregistered key against a store
holding one customer: 401 and the store is untouched. -/
theorem upload_unauthorized_witness :
    authenticate (some "bogus") (register "T" "t@e.com" initState).2 = none ∧
    (handleUpload (some "bogus") (some ("a.txt", [104]))
      (register "T" "t@e.com" initState).2).1.status = 401 := by
  refine ⟨by decide, ?_⟩
  exact (upload_unauthorized (some "bogus") (some ("a.txt", [104]))
    (register "T" "t@e.com" initState).2 (by decide)).2.1

/-- **C6.** An authenticated upload whose filename extension is outside
the allow-list fails with BadRequest (400), an error containing "not
allowed", and no state change; an authenticated upload with no file
payload also fails with BadRequest (400) and no state change. -/
theorem upload_bad_request (key : Option String) (s : AppState) (cid : Nat)
    (fname : String) (bytes : Bytes)
    (hauth : authenticate key s = some cid)
    (hext : allowedFile fname = false) :
    (handleUpload key (some (fname, bytes)) s).1.status = 400 ∧
    containsText (((handleUpload key (some (fname, bytes)) s).1.error).getD "")
      "not allowed" = true ∧
    (handleUpload key (some (fname, bytes)) s).2 = s ∧
    (handleUpload key none s).1.status = 400 ∧
    (handleUpload key none s).2 = s := by
  refine ⟨?_, ?_, ?_, ?_, ?_⟩ <;>
      simp only [handleUpload, hauth, hext, Bool.false_eq_true, if_false] <;>
    rfl

/-- **C6 witness.** Uploading `test.exe` with a valid key: 400 with a
"not allowed" error; uploading nothing: 400. -/
theorem upload_bad_request_witness :
    authenticate (some (genApiKey 0)) (register "T" "t@e.com" initState).2 =
      some 0 ∧
    allowedFile "test.exe" = false ∧
    (handleUpload (some (genApiKey 0)) (some ("test.exe", [104]))
      (register "T" "t@e.com" initState).2).1.status = 400 := by
  refine ⟨by decide, by decide, ?_⟩
  exact (upload_bad_request (some (genApiKey 0))
    (register "T" "t@e.com" initState).2 0 "test.exe" [104]
    (by decide) (by decide)).1

lemma handleUpload_of_fresh (key : Option String) (s : AppState) (cid : Nat)
    (fname : String) (bytes : Bytes)
    (hauth : authenticate key s = some cid)
    (hallow : allowedFile fname = true)
    (hfresh : hasDoc cid (fingerprint bytes) s = false) :
    handleUpload key (some (fname, bytes)) s =
      ({ Response.bare 201 with documentId := some s.nextDocumentId,
                                filename := some fname },
       { s with documents := ⟨s.nextDocumentId, cid, fname, fingerprint bytes, bytes.length⟩ :: s.documents,
                nextDocumentId := s.nextDocumentId + 1 }) := by
  simp only [handleUpload, hauth, hallow, if_true, hfresh, Bool.false_eq_true,
    if_false]

lemma handleUpload_of_dup (key : Option String) (s : AppState) (cid : Nat)
    (fname : String) (bytes : Bytes)
    (hauth : authenticate key s = some cid)
    (hallow : allowedFile fname = true)
    (hdup : hasDoc cid (fingerprint bytes) s = true) :
    handleUpload key (some (fname, bytes)) s =
      (Response.ofMessage 409 "duplicate document detected", s) := by
  simp only [handleUpload, hauth, hallow, if_true, hdup]

lemma authenticate_documents_irrelevant (key : Option String) (s : AppState)
    (docs : List Document) (n : Nat) :
    authenticate key { s with documents := docs, nextDocumentId := n } =
      authenticate key s := by
  cases key <;> rfl

lemma countP_of_not_hasDoc (cid : Nat) (f : Bytes) (s : AppState)
    (h : hasDoc cid f s = false) :
    s.documents.countP (fun d => d.customerId == cid && d.fp == f) = 0 := by
  rw [List.countP_eq_zero]
  intro d hd hpd
  have : s.documents.any (fun d => d.customerId == cid && d.fp == f) = true :=
    List.any_eq_true.mpr ⟨d, hd, hpd⟩
  rw [hasDoc] at h
  simp [this] at h

/-- **C1.** For a fixed customer with a fresh byte content: the first
upload succeeds with 201 and stores exactly one document for that
(customer, fingerprint) pair, and a second upload of the same bytes —
under any other allowed filename — fails with Conflict (409), a message
containing "duplicate", and leaves the store exactly as it was after
the first upload. -/
theorem upload_duplicate_conflict (key : Option String) (s : AppState)
    (cid : Nat) (f1 f2 : String) (b : Bytes)
    (hauth : authenticate key s = some cid)
    (h1 : allowedFile f1 = true) (h2 : allowedFile f2 = true)
    (hfresh : hasDoc cid (fingerprint b) s = false) :
    (handleUpload key (some (f1, b)) s).1.status = 201 ∧
    ((handleUpload key (some (f1, b)) s).2.documents.countP
      (fun d => d.customerId == cid && d.fp == fingerprint b)) = 1 ∧
    (handleUpload key (some (f2, b))
      (handleUpload key (some (f1, b)) s).2).1.status = 409 ∧
    containsText (((handleUpload key (some (f2, b))
      (handleUpload key (some (f1, b)) s).2).1.message).getD "")
      "duplicate" = true ∧
    (handleUpload key (some (f2, b)) (handleUpload key (some (f1, b)) s).2).2 =
      (handleUpload key (some (f1, b)) s).2 := by
  rw [handleUpload_of_fresh key s cid f1 b hauth h1 hfresh]
  have hauth1 : authenticate key
      { s with documents := ⟨s.nextDocumentId, cid, f1, fingerprint b, b.length⟩ :: s.documents,
               nextDocumentId := s.nextDocumentId + 1 } = some cid := by
    rw [authenticate_documents_irrelevant]; exact hauth
  have hdup1 : hasDoc cid (fingerprint b)
      { s with documents := ⟨s.nextDocumentId, cid, f1, fingerprint b, b.length⟩ :: s.documents,
               nextDocumentId := s.nextDocumentId + 1 } = true := by
    simp [hasDoc, List.any_cons]
  rw [handleUpload_of_dup key _ cid f2 b hauth1 h2 hdup1]
  refine ⟨rfl, ?_, rfl,
    (by decide :
      containsText "duplicate document detected" "duplicate" = true),
    rfl⟩
  simp only [List.countP_cons, countP_of_not_hasDoc cid (fingerprint b) s hfresh]
  simp

/-- **C1 witness.** One registered customer uploads the bytes "hi" as
`a.txt`, then again as `b.txt`: 201 then 409. -/
theorem upload_duplicate_conflict_witness :
    authenticate (some (genApiKey 0)) (register "T" "t@e.com" initState).2 =
      some 0 ∧
    allowedFile "a.txt" = true ∧ allowedFile "b.txt" = true ∧
    hasDoc 0 (fingerprint [104, 105]) (register "T" "t@e.com" initState).2 =
      false ∧
    (handleUpload (some (genApiKey 0)) (some ("b.txt", [104, 105]))
      (handleUpload (some (genApiKey 0)) (some ("a.txt", [104, 105]))
        (register "T" "t@e.com" initState).2).2).1.status = 409 := by
  refine ⟨by decide, by decide, by decide, by decide, ?_⟩
  exact (upload_duplicate_conflict (some (genApiKey 0))
    (register "T" "t@e.com" initState).2 0 "a.txt" "b.txt" [104, 105]
    (by decide) (by decide) (by decide) (by decide)).2.2.1

lemma find?_docs_eq_none (docId cid : Nat) (docs : List Document)
    (h : ∀ d ∈ docs, d.id = docId → d.customerId ≠ cid) :
    docs.find? (fun d => d.id == docId && d.customerId == cid) = none := by
  rw [List.find?_eq_none]
  intro d hd hpd
  simp only [Bool.and_eq_true, beq_iff_eq] at hpd
  exact h d hd hpd.1 hpd.2

/-- **C3.** Tenant isolation of reads: (a) when no document with the
requested id is owned by the authenticated customer — it is absent or
foreign-owned — `get` answers NotFound (404); (b) `get` only ever
answers 401, 404 or 200, never Forbidden (403), so a foreign document
is indistinguishable from an absent one; (c) a listing only contains
documents owned by the authenticated customer. -/
theorem get_list_tenant_isolation (key : Option String) (s : AppState)
    (cid docId : Nat)
    (hauth : authenticate key s = some cid)
    (habsent : ∀ d ∈ s.documents, d.id = docId → d.customerId ≠ cid) :
    (getDocument key docId s).status = 404 ∧
    (∀ (k2 : Option String) (i2 : Nat),
      (getDocument k2 i2 s).status = 401 ∨ (getDocument k2 i2 s).status = 404 ∨
      (getDocument k2 i2 s).status = 200) ∧
    (∀ (page perPage : Option Nat) (d : Document),
      d ∈ ((listDocuments key page perPage s).documents).getD [] →
      d.customerId = cid) := by
  refine ⟨?_, ?_, ?_⟩
  · simp [getDocument, hauth,
      find?_docs_eq_none docId cid s.documents habsent]
  · intro k2 i2
    rcases hA : authenticate k2 s with _ | c2
    · left; simp [getDocument, hA]
    · rcases hF : s.documents.find? (fun d => d.id == i2 && d.customerId == c2)
        with _ | d
      · right; left; simp [getDocument, hA, hF]
      · right; right; simp [getDocument, hA, hF]
  · intro page perPage d hd
    simp only [listDocuments, hauth] at hd
    have hd2 : d ∈ ownDocuments cid s :=
      List.drop_subset _ _ (List.take_subset _ _ hd)
    have := (List.mem_filter.mp hd2).2
    simpa using this

/-- **C3 witness.** With one registered customer, fetching an id that
is not in the (empty) document store answers 404. -/
theorem get_list_tenant_isolation_witness :
    authenticate (some (genApiKey 0)) (register "T" "t@e.com" initState).2 =
      some 0 ∧
    (getDocument (some (genApiKey 0)) 7
      (register "T" "t@e.com" initState).2).status = 404 := by
  refine ⟨by decide, ?_⟩
  exact (get_list_tenant_isolation (some (genApiKey 0))
    (register "T" "t@e.com" initState).2 0 7 (by decide)
    (by decide)).1

lemma deleteDocument_of_found (key : Option String) (s : AppState)
    (cid docId : Nat)
    (hauth : authenticate key s = some cid)
    (hfound : s.documents.any (fun d => d.id == docId && d.customerId == cid) =
      true) :
    deleteDocument key docId s =
      (Response.ofMessage 200 "Document deleted successfully",
       { s with documents :=
           s.documents.filter (fun d => !(d.id == docId && d.customerId == cid)) }) := by
  simp only [deleteDocument, hauth, hfound, if_true]

lemma deleteDocument_of_missing (key : Option String) (s : AppState)
    (cid docId : Nat)
    (hauth : authenticate key s = some cid)
    (hmiss : s.documents.any (fun d => d.id == docId && d.customerId == cid) =
      false) :
    deleteDocument key docId s = (Response.ofError 404 "Document not found", s) := by
  simp only [deleteDocument, hauth, hmiss, Bool.false_eq_true, if_false]

/-- **C4.** Deleting a document the caller owns returns 200 with a
message containing "deleted successfully" and permanently removes the
record: a subsequent `get` of the same id by the same caller answers
404.  Deleting an id that is absent or foreign-owned answers NotFound
(404) and leaves the store unchanged. -/
theorem delete_document_semantics (key : Option String) (s : AppState)
    (cid docId : Nat)
    (hauth : authenticate key s = some cid)
    (hfound : s.documents.any (fun d => d.id == docId && d.customerId == cid) =
      true) :
    (deleteDocument key docId s).1.status = 200 ∧
    containsText (((deleteDocument key docId s).1.message).getD "")
      "deleted successfully" = true ∧
    (getDocument key docId (deleteDocument key docId s).2).status = 404 ∧
    ∀ i2 : Nat,
      s.documents.any (fun d => d.id == i2 && d.customerId == cid) = false →
      (deleteDocument key i2 s).1.status = 404 ∧
      (deleteDocument key i2 s).2 = s := by
  rw [deleteDocument_of_found key s cid docId hauth hfound]
  refine ⟨rfl,
    (by decide :
      containsText "Document deleted successfully" "deleted successfully" =
        true),
    ?_, ?_⟩
  · have hauth2 : authenticate key
        { s with documents :=
            s.documents.filter (fun d => !(d.id == docId && d.customerId == cid)) } =
        some cid := by
      cases key with
      | none => exact hauth
      | some k => exact hauth
    have hnone :
        (s.documents.filter
          (fun d => !(d.id == docId && d.customerId == cid))).find?
          (fun d => d.id == docId && d.customerId == cid) = none := by
      rw [List.find?_eq_none]
      intro d hd
      have := (List.mem_filter.mp hd).2
      simp only [Bool.not_eq_eq_eq_not, Bool.not_true] at this
      simp [this]
    simp only [getDocument, hauth2, hnone]
    rfl
  · intro i2 hmiss
    rw [deleteDocument_of_missing key s cid i2 hauth hmiss]
    exact ⟨rfl, rfl⟩

/-- **C4 witness.** The spec's scenario: upload a document, delete it
(200), and the subsequent `get` on its id answers 404. -/
theorem delete_document_semantics_witness :
    authenticate (some (genApiKey 0))
      (handleUpload (some (genApiKey 0)) (some ("a.txt", [104]))
        (register "T" "t@e.com" initState).2).2 = some 0 ∧
    ((handleUpload (some (genApiKey 0)) (some ("a.txt", [104]))
        (register "T" "t@e.com" initState).2).2.documents.any
      (fun d => d.id == 0 && d.customerId == 0)) = true ∧
    (deleteDocument (some (genApiKey 0)) 0
      (handleUpload (some (genApiKey 0)) (some ("a.txt", [104]))
        (register "T" "t@e.com" initState).2).2).1.status = 200 ∧
    (getDocument (some (genApiKey 0)) 0
      (deleteDocument (some (genApiKey 0)) 0
        (handleUpload (some (genApiKey 0)) (some ("a.txt", [104]))
          (register "T" "t@e.com" initState).2).2).2).status = 404 := by
  refine ⟨by decide, by decide, ?_, ?_⟩
  · exact (delete_document_semantics (some (genApiKey 0))
      (handleUpload (some (genApiKey 0)) (some ("a.txt", [104]))
        (register "T" "t@e.com" initState).2).2 0 0
      (by decide) (by decide)).1
  · exact (delete_document_semantics (some (genApiKey 0))
      (handleUpload (some (genApiKey 0)) (some ("a.txt", [104]))
        (register "T" "t@e.com" initState).2).2 0 0
      (by decide) (by decide)).2.2.1

lemma listDocuments_of_auth (key : Option String) (page perPage : Option Nat)
    (s : AppState) (cid : Nat)
    (hauth : authenticate key s = some cid) :
    listDocuments key page perPage s =
      { Response.bare 200 with
          documents := some (((ownDocuments cid s).drop
            ((page.getD 1 - 1) * perPage.getD 20)).take (perPage.getD 20)),
          total := some (ownDocuments cid s).length,
          page := some (page.getD 1),
          perPage := some (perPage.getD 20) } := by
  simp only [listDocuments, hauth]

/-- **C8.** An authenticated listing always answers 200 and echoes the
request's `page` and `per_page` (1 and 20 when unspecified) together
with the total count of the customer's documents; when the requested
page lies beyond the last available page the item list is empty while
the total is still correct. -/
theorem list_pagination (key : Option String) (s : AppState) (cid : Nat)
    (page perPage : Option Nat)
    (hauth : authenticate key s = some cid) :
    (listDocuments key page perPage s).status = 200 ∧
    (listDocuments key page perPage s).page = some (page.getD 1) ∧
    (listDocuments key page perPage s).perPage = some (perPage.getD 20) ∧
    (listDocuments key page perPage s).total =
      some (ownDocuments cid s).length ∧
    ((ownDocuments cid s).length ≤ (page.getD 1 - 1) * perPage.getD 20 →
      ((listDocuments key page perPage s).documents).getD [] = []) := by
  rw [listDocuments_of_auth key page perPage s cid hauth]
  refine ⟨rfl, rfl, rfl, rfl, ?_⟩
  intro h
  have hdrop : (ownDocuments cid s).drop
      ((page.getD 1 - 1) * perPage.getD 20) = [] := by
    rw [List.drop_eq_nil_iff]
    exact h
  show (some (((ownDocuments cid s).drop
    ((page.getD 1 - 1) * perPage.getD 20)).take (perPage.getD 20))).getD [] = []
  rw [hdrop, List.take_nil]
  rfl

/-- **C8 witness.** With one stored document, requesting page 5 of size
5: 200, the echoed page/per_page, and an empty item list with total 1. -/
theorem list_pagination_witness :
    authenticate (some (genApiKey 0))
      (handleUpload (some (genApiKey 0)) (some ("a.txt", [104]))
        (register "T" "t@e.com" initState).2).2 = some 0 ∧
    (listDocuments (some (genApiKey 0)) (some 5) (some 5)
      (handleUpload (some (genApiKey 0)) (some ("a.txt", [104]))
        (register "T" "t@e.com" initState).2).2).page = some 5 := by
  refine ⟨by decide, ?_⟩
  exact (list_pagination (some (genApiKey 0))
    (handleUpload (some (genApiKey 0)) (some ("a.txt", [104]))
      (register "T" "t@e.com" initState).2).2 0 (some 5) (some 5)
    (by decide)).2.1

/-- **C9 counterexample.** The paths listed in the spec's
external-interfaces section are not served: a well-formed registration
request to `POST /customers/register` and an upload request to
`POST /documents/upload` both fall through the routing table (404,
nothing stored), while the `/api/v1`-prefixed paths the tests use are
the ones actually routed. -/
theorem spec_paths_not_served :
    routeOf "POST" "/customers/register" = Route.noRoute ∧
    routeOf "POST" "/documents/upload" = Route.noRoute ∧
    (dispatch ⟨"POST", "/customers/register", [], some "John Doe",
      some "a@x.com", none, none, none⟩ initState).1.status = 404 ∧
    (dispatch ⟨"POST", "/customers/register", [], some "John Doe",
      some "a@x.com", none, none, none⟩ initState).2 = initState := by
  decide

/-- **C9 (amended).** The HTTP surface serves customer registration at
`POST /api/v1/customers/register` and document upload at
`POST /api/v1/documents/upload` — the spec's paths carrying an
`/api/v1` prefix: registering there succeeds with 201, and uploading
there with the issued key succeeds with 201. -/
theorem routes_use_api_v1_paths :
    routeOf "POST" "/api/v1/customers/register" = Route.registerRoute ∧
    routeOf "POST" "/api/v1/documents/upload" = Route.uploadRoute ∧
    (dispatch ⟨"POST", "/api/v1/customers/register", [], some "John Doe",
      some "a@x.com", none, none, none⟩ initState).1.status = 201 ∧
    (dispatch ⟨"POST", "/api/v1/documents/upload",
      [("X-API-Key", genApiKey 0)], none, none, some ("a.txt", [104]),
      none, none⟩
      (dispatch ⟨"POST", "/api/v1/customers/register", [], some "John Doe",
        some "a@x.com", none, none, none⟩ initState).2).1.status = 201 := by
  decide

/-- **C10.** Every authenticated document operation reads the API key
from the `X-API-Key` header only: a request whose headers carry no
`X-API-Key` entry — whatever else they carry, and whatever the body
holds — is treated as having no key and rejected with 401, with the
store untouched by upload and delete. -/
theorem api_key_header_only (headers : List (String × String))
    (body1 body2 : Option String) (file : Option (String × Bytes))
    (page perPage : Option Nat) (s : AppState)
    (h : headers.find? (fun p => p.fst == "X-API-Key") = none) :
    (dispatch ⟨"POST", "/api/v1/documents/upload", headers, body1, body2,
      file, page, perPage⟩ s).1.status = 401 ∧
    (dispatch ⟨"POST", "/api/v1/documents/upload", headers, body1, body2,
      file, page, perPage⟩ s).2 = s ∧
    (dispatch ⟨"GET", "/api/v1/documents", headers, body1, body2,
      file, page, perPage⟩ s).1.status = 401 ∧
    (dispatch ⟨"GET", "/api/v1/documents/7", headers, body1, body2,
      file, page, perPage⟩ s).1.status = 401 ∧
    (dispatch ⟨"DELETE", "/api/v1/documents/7", headers, body1, body2,
      file, page, perPage⟩ s).1.status = 401 ∧
    (dispatch ⟨"DELETE", "/api/v1/documents/7", headers, body1, body2,
      file, page, perPage⟩ s).2 = s := by
  have r1 : routeOf "POST" "/api/v1/documents/upload" = Route.uploadRoute := by
    decide
  have r2 : routeOf "GET" "/api/v1/documents" = Route.listRoute := by decide
  have r3 : routeOf "GET" "/api/v1/documents/7" = Route.getRoute "7" := by
    decide
  have r4 : routeOf "DELETE" "/api/v1/documents/7" = Route.deleteRoute "7" := by
    decide
  have hid : parseDocId "7" = some 7 := by decide
  refine ⟨?_, ?_, ?_, ?_, ?_, ?_⟩ <;>
    simp [dispatch, r1, r2, r3, r4, hid, requestApiKey, headerValue, h,
      handleUpload, listDocuments, getDocument, deleteDocument, authenticate]

/-- **C10 witness.** A request carrying a valid key under the wrong
header name (`Authorization`) is rejected with 401 on upload. -/
theorem api_key_header_only_witness :
    ([("Authorization", genApiKey 0)].find?
      (fun p => p.fst == "X-API-Key")) = none ∧
    (dispatch ⟨"POST", "/api/v1/documents/upload",
      [("Authorization", genApiKey 0)], none, none, some ("a.txt", [104]),
      none, none⟩ (register "T" "t@e.com" initState).2).1.status = 401 := by
  refine ⟨by decide, ?_⟩
  exact (api_key_header_only [("Authorization", genApiKey 0)] none none
    (some ("a.txt", [104])) none none (register "T" "t@e.com" initState).2
    (by decide)).1
